import Mathlib

/-!
Shallow embedding of the settings-synchronization logic of
src/src/components/OllamaSettings.tsx (a React component panel).

The component is event-driven and single-threaded.  We model it as an
executable state machine: the panel's React state (`ComponentState`),
together with the current value of the externally supplied
initialSettings prop, the dependency tuple recorded by the bootstrap
useEffect at its last run, and the list of settings records pushed to
the owner through the onSettingsSave callback (`SysState`), evolves by
explicit steps mirroring the component's event handlers and effects:
mount, field edit, fetch resolution, change of the initialSettings prop,
re-render, and the manual Apply button.

React effect semantics are modelled faithfully: an effect runs after a
render exactly when its dependency tuple differs from the tuple at its
previous run (and always on the first render).  The onSettingsSave
callback is assumed referentially stable across renders, as its presence
in the dependency arrays otherwise has no observable consequence in
this model.  JavaScript truthiness of strings (empty string is falsy)
is translated to equality with the empty string.
-/

/-- A JavaScript number as it occurs in this component: either NaN
(produced by the Number coercion on non-numeric text) or an ordinary
numeric value, modelled as a rational. -/
inductive JsNum where
  | nan : JsNum
  | num : ℚ → JsNum
deriving DecidableEq, Repr

/-- The settings record (TS interface OllamaSettings, lines 25-32 of the
source): model identifier, temperature, top-p, fixed-seed flag, seed,
context size. -/
structure OllamaSettings where
  model : String
  temperature : JsNum
  topP : JsNum
  useFixedSeed : Bool
  seed : JsNum
  numCtx : JsNum
deriving DecidableEq, Repr

/-- The hard-coded default settings literal used by the useState
initializer when no initialSettings prop is supplied (source lines
45-52). -/
def defaultSettings : OllamaSettings :=
  { model := ""
    temperature := JsNum.num (7 / 10)
    topP := JsNum.num (9 / 10)
    useFixedSeed := false
    seed := JsNum.num 42
    numCtx := JsNum.num 2048 }

/-- One entry of the models array of the fetched JSON body: an object
exposing a name string. -/
structure ModelEntry where
  name : String
deriving DecidableEq, Repr

/-- The value of the JS expression data.models?.map((m) => m.name) || []
(source line 68): when the models key is absent or nullish the result is
the empty list, otherwise the list of names. -/
def modelNames (payload : Option (List ModelEntry)) : List String :=
  (payload.map (fun l => l.map ModelEntry.name)).getD []

/-- The functional setSettings updater inside fetchModels (source lines
73-78): if the fetched list is non-empty and the settings current at the
moment of application have an empty model, replace the whole record with
one whose model is the first entry of the list; otherwise return the
current record unchanged. -/
def applyModelBootstrap (models : List String) (cur : OllamaSettings) : OllamaSettings :=
  if 0 < models.length ∧ cur.model = "" then { cur with model := models.headI } else cur

/-- One field edit, tagged by the field it targets, carrying the value
passed to handleSettingChange by the corresponding input control. -/
inductive FieldUpdate where
  | model (v : String)
  | temperature (v : JsNum)
  | topP (v : JsNum)
  | useFixedSeed (v : Bool)
  | seed (v : JsNum)
  | numCtx (v : JsNum)
deriving DecidableEq, Repr

/-- The record spread { ...settings, [field]: value } in
handleSettingChange (source line 110): a whole new record in which
exactly the named field carries the new value. -/
def applyField (s : OllamaSettings) : FieldUpdate → OllamaSettings
  | FieldUpdate.model v => { s with model := v }
  | FieldUpdate.temperature v => { s with temperature := v }
  | FieldUpdate.topP v => { s with topP := v }
  | FieldUpdate.useFixedSeed v => { s with useFixedSeed := v }
  | FieldUpdate.seed v => { s with seed := v }
  | FieldUpdate.numCtx v => { s with numCtx := v }

/-- Value of a digit string read in base 10. -/
def digitsToNat (cs : List Char) : Nat :=
  cs.foldl (fun a c => a * 10 + (c.toNat - 48)) 0

/-- Decimal body of a JS numeric literal: digits, digits.digits,
.digits or digits. (at least one digit overall); anything else is
rejected. -/
def parseUnsigned (body : String) : Option ℚ :=
  match body.splitOn "." with
  | [i] =>
    if 0 < i.length ∧ i.all Char.isDigit then some ((digitsToNat i.data : ℚ)) else none
  | [i, f] =>
    if (0 < i.length ∨ 0 < f.length) ∧ i.all Char.isDigit ∧ f.all Char.isDigit then
      some ((digitsToNat i.data : ℚ) + (digitsToNat f.data : ℚ) / ((10 : ℚ) ^ f.length))
    else none
  | _ => none

/-- The JavaScript Number(...) coercion applied by the seed and numCtx
TextField onChange handlers (source lines 424 and 451).  Number is a
host builtin, modelled here on the decimal forms that a numeric text
field produces: surrounding whitespace is ignored, the empty string
coerces to 0, an optionally signed decimal literal coerces to its value,
and any other string coerces to NaN.  The function is total: no input
raises an exception. -/
def jsNumber (s : String) : JsNum :=
  let t := s.trim
  if t = "" then JsNum.num 0
  else if t.startsWith "-" then
    match parseUnsigned (t.drop 1) with
    | some q => JsNum.num (-q)
    | none => JsNum.nan
  else if t.startsWith "+" then
    match parseUnsigned (t.drop 1) with
    | some q => JsNum.num q
    | none => JsNum.nan
  else
    match parseUnsigned t with
    | some q => JsNum.num q
    | none => JsNum.nan

/-- The seed TextField onChange handler argument (source line 424):
handleSettingChange receives the Number coercion of the raw text. -/
def seedInputChange (raw : String) : FieldUpdate :=
  FieldUpdate.seed (jsNumber raw)

/-- The numCtx TextField onChange handler argument (source line 451). -/
def numCtxInputChange (raw : String) : FieldUpdate :=
  FieldUpdate.numCtx (jsNumber raw)

/-- Static configuration of one mounted panel: the autoApply prop
(default false in the source) and the remediation command string. -/
structure Config where
  autoApply : Bool
  startCommand : String
deriving DecidableEq, Repr

/-- Modelled from the spec: getOllamaStartCommand is imported from
src/config/api, a file of this repository that is not among the reviewed
sources.  Per the spec it returns a platform-specific remediation
instruction telling the user how to start the local model server.  It is
modelled as an arbitrary string carried in the panel configuration, so
every theorem below holds for every possible remediation command. -/
def getOllamaStartCommand (cfg : Config) : String :=
  cfg.startCommand

/-- The React state of the component: the working settings record, the
loading flag, the optional error string, and the fetched model list
(source lines 45-55). -/
structure ComponentState where
  settings : OllamaSettings
  loading : Bool
  error : Option String
  availableModels : List String
deriving DecidableEq, Repr

/-- Provenance of one onSettingsSave invocation: a call made
synchronously inside an edit handler (the source makes none), the
requestAnimationFrame callback scheduled by handleSettingChange, the
bootstrap useEffect, or the manual Apply button. -/
inductive PushOrigin where
  | handlerSync
  | frame
  | bootstrapEffect
  | commit
deriving DecidableEq, Repr

/-- The whole observable system: component state, the current value of
the initialSettings prop, the dependency tuple recorded by the bootstrap
useEffect at its previous run (none before the first render), and the
sequence of owner pushes so far, each tagged with its origin. -/
structure SysState where
  comp : ComponentState
  external : Option OllamaSettings
  bootstrapDeps : Option (Bool × String × Option String)
  pushes : List (PushOrigin × OllamaSettings)
deriving DecidableEq, Repr

/-- Dependency tuple of the bootstrap useEffect (source line 99):
autoApply, settings.model, initialSettings?.model.  The onSettingsSave
entry is omitted as it is assumed referentially stable. -/
def bootstrapDepsOf (cfg : Config) (st : SysState) : Bool × String × Option String :=
  (cfg.autoApply, st.comp.settings.model, st.external.map OllamaSettings.model)

/-- Guard of the bootstrap useEffect body (source line 96):
autoApply && settings.model && !initialSettings?.model, with JS
truthiness of strings translated to (in)equality with the empty string
(initialSettings?.model is falsy when the prop is absent or its model is
empty). -/
def bootstrapGuard (cfg : Config) (st : SysState) : Prop :=
  cfg.autoApply = true ∧ st.comp.settings.model ≠ "" ∧
    ((st.external.map OllamaSettings.model).getD "") = ""

instance (cfg : Config) (st : SysState) : Decidable (bootstrapGuard cfg st) := by
  unfold bootstrapGuard; infer_instance

/-- Run the bootstrap useEffect (source lines 94-99) after a render: it
re-runs exactly when its dependency tuple differs from the tuple at its
previous run (always on the first render), and when it runs it invokes
onSettingsSave with the current settings record iff its guard holds. -/
def runBootstrapEffect (cfg : Config) (st : SysState) : SysState :=
  if st.bootstrapDeps = some (bootstrapDepsOf cfg st) then st
  else if bootstrapGuard cfg st then
    { st with bootstrapDeps := some (bootstrapDepsOf cfg st)
              pushes := st.pushes ++ [(PushOrigin.bootstrapEffect, st.comp.settings)] }
  else { st with bootstrapDeps := some (bootstrapDepsOf cfg st) }

/-- A state is quiescent when the bootstrap effect's recorded dependency
tuple matches the current one, i.e. all effects have settled since the
last change.  Every state produced by a step below is quiescent. -/
def quiescent (cfg : Config) (st : SysState) : Prop :=
  st.bootstrapDeps = some (bootstrapDepsOf cfg st)

instance (cfg : Config) (st : SysState) : Decidable (quiescent cfg st) :=
  inferInstanceAs (Decidable (st.bootstrapDeps = some (bootstrapDepsOf cfg st)))

/-- Mount of the panel (source lines 43-55 and the first render): the
working record is the initialSettings prop when supplied, else the
default literal; loading is true, there is no error and the model list
is empty.  All effects run after the first render: the fetch effect
starts the asynchronous fetchModels call (its resolution is a separate
step), the initialSettings-sync effect rewrites settings with the prop
value it already holds, and the bootstrap effect runs with a first-time
dependency tuple. -/
def stepMount (cfg : Config) (initialSettings : Option OllamaSettings) : SysState :=
  runBootstrapEffect cfg
    { comp :=
        { settings := initialSettings.getD defaultSettings
          loading := true
          error := none
          availableModels := [] }
      external := initialSettings
      bootstrapDeps := none
      pushes := [] }

/-- Result of one call of handleSettingChange (source lines 108-122):
the new settings record produced by the spread, the onSettingsSave
invocations the handler makes synchronously inside the same update (the
source makes none: the only call sits inside a requestAnimationFrame
callback), and the records captured by the requestAnimationFrame
callbacks it schedules (exactly one when autoApply is enabled, none
otherwise). -/
structure HandlerResult where
  newSettings : OllamaSettings
  immediatePushes : List OllamaSettings
  frameCallbacks : List OllamaSettings
deriving DecidableEq, Repr

/-- handleSettingChange (source lines 108-122): build the new record by
spreading the old one with the single changed field, update local state
synchronously, and when autoApply is enabled schedule one deferred
onSettingsSave call via requestAnimationFrame carrying the new record. -/
def handleSettingChange (autoApply : Bool) (settings : OllamaSettings)
    (u : FieldUpdate) : HandlerResult :=
  let newSettings := applyField settings u
  { newSettings := newSettings
    immediatePushes := []
    frameCallbacks := if autoApply then [newSettings] else [] }

/-- One field edit and everything that follows it before the next user
event: the handler updates local state synchronously (issuing any
synchronous pushes it makes, of which the source has none), the
re-render runs the bootstrap effect if its dependencies changed (the
initialSettings-sync effect's dependency is unchanged), and the
scheduled requestAnimationFrame callbacks fire before the next frame. -/
def stepEdit (cfg : Config) (st : SysState) (u : FieldUpdate) : SysState :=
  let r := handleSettingChange cfg.autoApply st.comp.settings u
  let st1 : SysState :=
    { st with
        comp := { st.comp with settings := r.newSettings }
        pushes := st.pushes ++ r.immediatePushes.map (fun s => (PushOrigin.handlerSync, s)) }
  let st2 := runBootstrapEffect cfg st1
  { st2 with pushes := st2.pushes ++ r.frameCallbacks.map (fun s => (PushOrigin.frame, s)) }

/-- Outcome of the asynchronous body of fetchModels (source lines
58-86).  Modelled from the spec: checkOllamaConnection and fetchWithCORS
are imported from src/config/api, a file of this repository that is not
among the reviewed sources; per the spec the former is a connectivity
probe returning a boolean plus an optional error description and the
latter an HTTP GET returning the JSON body.  Their results enter the
machine as this event payload: the probe reported not connected (with
its optional error description), the fetch or JSON decoding itself
threw, or the fetch succeeded with a models array that is either absent
or a list of named entries. -/
inductive FetchOutcome where
  | connectFailed (connectionError : Option String)
  | fetchError
  | success (payload : Option (List ModelEntry))
deriving DecidableEq, Repr

/-- The catch branch of fetchModels (source lines 79-85): record the
user-facing error string, composed of a fixed message and the
remediation command; the finally branch clears loading.  The model list
and the settings are left untouched. -/
def fetchCatchState (cfg : Config) (c : ComponentState) : ComponentState :=
  { c with
      error := some ("Cannot connect to Ollama. " ++ getOllamaStartCommand cfg)
      loading := false }

/-- The success path of fetchModels (source lines 66-78 and 84): store
the fetched names, clear any prior error, apply the functional
bootstrap updater to the settings current at this moment, and clear
loading. -/
def fetchSuccessState (payload : Option (List ModelEntry)) (c : ComponentState) : ComponentState :=
  { c with
      availableModels := modelNames payload
      error := none
      settings := applyModelBootstrap (modelNames payload) c.settings
      loading := false }

/-- Resolution of the fetchModels call started at mount: the thrown
connection error and any fetch error are both caught by the same catch
branch; a successful fetch goes through the success path.  The render
that follows runs the bootstrap effect if its dependencies changed. -/
def stepFetchResolved (cfg : Config) (st : SysState) (o : FetchOutcome) : SysState :=
  match o with
  | FetchOutcome.connectFailed _ => runBootstrapEffect cfg { st with comp := fetchCatchState cfg st.comp }
  | FetchOutcome.fetchError => runBootstrapEffect cfg { st with comp := fetchCatchState cfg st.comp }
  | FetchOutcome.success payload =>
      runBootstrapEffect cfg { st with comp := fetchSuccessState payload st.comp }

/-- Change of identity of the initialSettings prop.  The render carrying
the new prop runs the effects in declaration order: first the bootstrap
effect (which sees the new prop and the old settings), then the sync
effect (source lines 102-106), which overwrites the working record
wholesale with the new prop value when one is present; the render caused
by that overwrite runs the bootstrap effect again. -/
def stepExternalChange (cfg : Config) (st : SysState)
    (newExternal : Option OllamaSettings) : SysState :=
  let st1 := runBootstrapEffect cfg { st with external := newExternal }
  match newExternal with
  | some e => runBootstrapEffect cfg { st1 with comp := { st1.comp with settings := e } }
  | none => st1

/-- A render with unchanged props and state (e.g. caused by the parent):
no effect's dependency tuple has changed, so on a quiescent state
nothing happens. -/
def stepRerender (cfg : Config) (st : SysState) : SysState :=
  runBootstrapEffect cfg st

/-- The Apply Settings button (source line 480), rendered only when
autoApply is disabled: push the current working record to the owner. -/
def stepCommit (st : SysState) : SysState :=
  { st with pushes := st.pushes ++ [(PushOrigin.commit, st.comp.settings)] }

/-- Number of owner pushes made by the bootstrap effect. -/
def bootstrapPushCount (st : SysState) : Nat :=
  st.pushes.countP (fun p => p.1 == PushOrigin.bootstrapEffect)

/-! Helper lemmas about the machine. -/

theorem runBootstrapEffect_comp (cfg : Config) (st : SysState) :
    (runBootstrapEffect cfg st).comp = st.comp := by
  unfold runBootstrapEffect
  split
  · rfl
  · split <;> rfl

theorem runBootstrapEffect_external (cfg : Config) (st : SysState) :
    (runBootstrapEffect cfg st).external = st.external := by
  unfold runBootstrapEffect
  split
  · rfl
  · split <;> rfl

theorem runBootstrapEffect_of_quiescent (cfg : Config) (st : SysState)
    (h : quiescent cfg st) : runBootstrapEffect cfg st = st := by
  unfold runBootstrapEffect
  exact if_pos h

theorem runBootstrapEffect_quiescent (cfg : Config) (st : SysState) :
    quiescent cfg (runBootstrapEffect cfg st) := by
  unfold quiescent runBootstrapEffect
  split
  · assumption
  · split <;> rfl

theorem bootstrapGuard_not_auto (cfg : Config) (st : SysState)
    (h : cfg.autoApply = false) : ¬ bootstrapGuard cfg st := by
  intro hg
  unfold bootstrapGuard at hg
  rw [h] at hg
  exact Bool.false_ne_true hg.1

theorem runBootstrapEffect_pushes_not_auto (cfg : Config) (st : SysState)
    (h : cfg.autoApply = false) :
    (runBootstrapEffect cfg st).pushes = st.pushes := by
  unfold runBootstrapEffect
  by_cases hd : st.bootstrapDeps = some (bootstrapDepsOf cfg st)
  · rw [if_pos hd]
  · rw [if_neg hd, if_neg (bootstrapGuard_not_auto cfg st h)]

theorem runBootstrapEffect_pushes_fire (cfg : Config) (st : SysState)
    (hne : st.bootstrapDeps ≠ some (bootstrapDepsOf cfg st))
    (hg : bootstrapGuard cfg st) :
    (runBootstrapEffect cfg st).pushes
      = st.pushes ++ [(PushOrigin.bootstrapEffect, st.comp.settings)] := by
  unfold runBootstrapEffect
  rw [if_neg hne, if_pos hg]

theorem runBootstrapEffect_pushes_silent (cfg : Config) (st : SysState)
    (hg : ¬ bootstrapGuard cfg st) :
    (runBootstrapEffect cfg st).pushes = st.pushes := by
  unfold runBootstrapEffect
  by_cases hd : st.bootstrapDeps = some (bootstrapDepsOf cfg st)
  · rw [if_pos hd]
  · rw [if_neg hd, if_neg hg]

theorem stepEdit_settings (cfg : Config) (st : SysState) (u : FieldUpdate) :
    (stepEdit cfg st u).comp.settings = applyField st.comp.settings u := by
  unfold stepEdit handleSettingChange
  simp only [runBootstrapEffect_comp]

theorem stepEdit_pushes_manual (cfg : Config) (st : SysState) (u : FieldUpdate)
    (h : cfg.autoApply = false) :
    (stepEdit cfg st u).pushes = st.pushes := by
  unfold stepEdit handleSettingChange
  simp only [h, if_false, List.map_nil, List.append_nil, runBootstrapEffect_pushes_not_auto cfg _ h,
    Bool.false_eq_true]

theorem stepEdit_quiescent (cfg : Config) (st : SysState) (u : FieldUpdate) :
    quiescent cfg (stepEdit cfg st u) := by
  simp only [stepEdit]
  exact runBootstrapEffect_quiescent cfg _

theorem stepEdit_pushes_auto (cfg : Config) (st : SysState) (u : FieldUpdate)
    (hA : cfg.autoApply = true) (hq : quiescent cfg st)
    (hm : (applyField st.comp.settings u).model = st.comp.settings.model) :
    (stepEdit cfg st u).pushes
      = st.pushes ++ [(PushOrigin.frame, applyField st.comp.settings u)] := by
  have hq1 : quiescent cfg
      { st with
          comp := { st.comp with settings := applyField st.comp.settings u }
          pushes := st.pushes ++ [] } := by
    unfold quiescent bootstrapDepsOf at hq ⊢
    simpa [hm] using hq
  unfold stepEdit handleSettingChange
  simp only [hA, if_true, List.map_nil, List.append_nil, List.map_cons]
  rw [runBootstrapEffect_of_quiescent cfg _ (by simpa using hq1)]

theorem stepMount_comp (cfg : Config) (ext : Option OllamaSettings) :
    (stepMount cfg ext).comp
      = { settings := ext.getD defaultSettings
          loading := true
          error := none
          availableModels := [] } := by
  unfold stepMount
  rw [runBootstrapEffect_comp]

theorem stepMount_external (cfg : Config) (ext : Option OllamaSettings) :
    (stepMount cfg ext).external = ext := by
  unfold stepMount
  rw [runBootstrapEffect_external]

theorem stepMount_pushes (cfg : Config) (ext : Option OllamaSettings) :
    (stepMount cfg ext).pushes = [] := by
  unfold stepMount
  rw [runBootstrapEffect_pushes_silent]
  intro hg
  unfold bootstrapGuard at hg
  cases ext with
  | none => exact hg.2.1 rfl
  | some e => exact hg.2.1 hg.2.2

theorem stepMount_quiescent (cfg : Config) (ext : Option OllamaSettings) :
    quiescent cfg (stepMount cfg ext) := by
  unfold stepMount
  exact runBootstrapEffect_quiescent cfg _

theorem stepMount_bootstrapDeps (cfg : Config) (ext : Option OllamaSettings) :
    (stepMount cfg ext).bootstrapDeps
      = some (cfg.autoApply, (ext.getD defaultSettings).model,
              ext.map OllamaSettings.model) := by
  have h := stepMount_quiescent cfg ext
  unfold quiescent bootstrapDepsOf at h
  rw [stepMount_comp, stepMount_external] at h
  exact h

theorem stepFetchResolved_success_comp (cfg : Config) (st : SysState)
    (p : Option (List ModelEntry)) :
    (stepFetchResolved cfg st (FetchOutcome.success p)).comp
      = fetchSuccessState p st.comp := by
  unfold stepFetchResolved
  rw [runBootstrapEffect_comp]

theorem stepFetchResolved_connectFailed_comp (cfg : Config) (st : SysState)
    (e : Option String) :
    (stepFetchResolved cfg st (FetchOutcome.connectFailed e)).comp
      = fetchCatchState cfg st.comp := by
  unfold stepFetchResolved
  rw [runBootstrapEffect_comp]

theorem stepFetchResolved_connectFailed_pushes (cfg : Config) (st : SysState)
    (e : Option String) (hq : quiescent cfg st) :
    (stepFetchResolved cfg st (FetchOutcome.connectFailed e)).pushes = st.pushes := by
  unfold stepFetchResolved
  rw [runBootstrapEffect_of_quiescent cfg _ (by exact hq)]

theorem applyModelBootstrap_of_empty (models : List String) (cur : OllamaSettings)
    (h1 : cur.model = "") (h2 : models ≠ []) :
    applyModelBootstrap models cur = { cur with model := models.headI } := by
  unfold applyModelBootstrap
  rw [if_pos ⟨List.length_pos.mpr h2, h1⟩]

theorem applyModelBootstrap_of_nonempty (models : List String) (cur : OllamaSettings)
    (h : cur.model ≠ "") : applyModelBootstrap models cur = cur := by
  unfold applyModelBootstrap
  rw [if_neg (fun hc => h hc.2)]

theorem applyModelBootstrap_nil (cur : OllamaSettings) :
    applyModelBootstrap [] cur = cur := by
  unfold applyModelBootstrap
  rw [if_neg (fun hc => absurd hc.1 (by simp))]

/-! Concrete fixtures used by the witnesses and counterexamples below. -/

def cfgAuto : Config :=
  { autoApply := true, startCommand := "start the model server" }

def cfgManual : Config :=
  { autoApply := false, startCommand := "start the model server" }

def extEmptyModel : OllamaSettings :=
  { model := ""
    temperature := JsNum.num 1
    topP := JsNum.num (1 / 2)
    useFixedSeed := true
    seed := JsNum.num 7
    numCtx := JsNum.num 1024 }

def extLlama : OllamaSettings :=
  { extEmptyModel with model := "llama3" }

def stManual : SysState := stepMount cfgManual none

def stAfterBootstrap : SysState :=
  stepFetchResolved cfgAuto (stepMount cfgAuto (some extEmptyModel))
    (FetchOutcome.success (some [{ name := "a" }]))

/-! Claim theorems. -/

/-- C1: at the resolution of a successful model-list fetch, the working
record's model is set to the first entry of the fetched list exactly when the
working model is empty at the moment of application and the fetched list is
non-empty, and the update replaces the whole working record (every other field
carried over); a working model that is already non-empty is never
overwritten. -/
theorem c1_bootstrap_model_selection (cfg : Config) (st : SysState)
    (p : Option (List ModelEntry)) :
    ((st.comp.settings.model = "" ∧ modelNames p ≠ []) →
      (stepFetchResolved cfg st (FetchOutcome.success p)).comp.settings
        = { st.comp.settings with model := (modelNames p).headI }) ∧
    ((st.comp.settings.model ≠ "" ∨ modelNames p = []) →
      (stepFetchResolved cfg st (FetchOutcome.success p)).comp.settings
        = st.comp.settings) := by
  constructor
  · rintro ⟨h1, h2⟩
    rw [stepFetchResolved_success_comp]
    show applyModelBootstrap (modelNames p) st.comp.settings = _
    exact applyModelBootstrap_of_empty _ _ h1 h2
  · rintro (h | h)
    · rw [stepFetchResolved_success_comp]
      show applyModelBootstrap (modelNames p) st.comp.settings = _
      exact applyModelBootstrap_of_nonempty _ _ h
    · rw [stepFetchResolved_success_comp]
      show applyModelBootstrap (modelNames p) st.comp.settings = _
      rw [h]
      exact applyModelBootstrap_nil _

/-- C1 witness: a record whose model is llama3 is untouched by a fetch of
[a, b]; a record whose model is empty acquires model a. -/
theorem c1_witness :
    (stepFetchResolved cfgAuto (stepMount cfgAuto (some extLlama))
        (FetchOutcome.success (some [{ name := "a" }, { name := "b" }]))).comp.settings
      = (stepMount cfgAuto (some extLlama)).comp.settings ∧
    (stepFetchResolved cfgAuto (stepMount cfgAuto (some extEmptyModel))
        (FetchOutcome.success (some [{ name := "a" }, { name := "b" }]))).comp.settings
      = { (stepMount cfgAuto (some extEmptyModel)).comp.settings with model := "a" } :=
  ⟨(c1_bootstrap_model_selection cfgAuto (stepMount cfgAuto (some extLlama)) _).2
      (Or.inl (by decide)),
   (c1_bootstrap_model_selection cfgAuto (stepMount cfgAuto (some extEmptyModel)) _).1
      ⟨by decide, by decide⟩⟩

/-- C3: applyField replaces exactly the named field in a fresh record; for any
temperature in [0,2] and topP in [0,1], the two edits followed by the
manual-mode commit push one record carrying exactly those values with every
other field unchanged, the seed carried verbatim whatever the useFixedSeed
flag holds. -/
theorem c3_applyField_commit (cfg : Config) (st : SysState) (t q : ℚ)
    (hA : cfg.autoApply = false)
    (ht0 : 0 ≤ t) (ht2 : t ≤ 2) (hq0 : 0 ≤ q) (hq1 : q ≤ 1) :
    (stepCommit (stepEdit cfg (stepEdit cfg st (FieldUpdate.temperature (JsNum.num t)))
        (FieldUpdate.topP (JsNum.num q)))).pushes
      = st.pushes ++ [(PushOrigin.commit,
          { st.comp.settings with temperature := JsNum.num t, topP := JsNum.num q })] ∧
    { st.comp.settings with temperature := JsNum.num t, topP := JsNum.num q }.seed
      = st.comp.settings.seed ∧
    { st.comp.settings with temperature := JsNum.num t, topP := JsNum.num q }.model
      = st.comp.settings.model ∧
    { st.comp.settings with temperature := JsNum.num t, topP := JsNum.num q }.useFixedSeed
      = st.comp.settings.useFixedSeed ∧
    { st.comp.settings with temperature := JsNum.num t, topP := JsNum.num q }.numCtx
      = st.comp.settings.numCtx := by
  refine ⟨?_, rfl, rfl, rfl, rfl⟩
  have p1 := stepEdit_pushes_manual cfg st (FieldUpdate.temperature (JsNum.num t)) hA
  have s1 := stepEdit_settings cfg st (FieldUpdate.temperature (JsNum.num t))
  have p2 := stepEdit_pushes_manual cfg (stepEdit cfg st (FieldUpdate.temperature (JsNum.num t)))
    (FieldUpdate.topP (JsNum.num q)) hA
  have s2 := stepEdit_settings cfg (stepEdit cfg st (FieldUpdate.temperature (JsNum.num t)))
    (FieldUpdate.topP (JsNum.num q))
  unfold stepCommit
  rw [p2, p1, s2, s1]
  rfl

/-- C3 witness: the commit after editing temperature to 1 and topP to 1/2 in
manual mode pushes exactly that record. -/
theorem c3_witness :
    (stepCommit (stepEdit cfgManual (stepEdit cfgManual stManual
        (FieldUpdate.temperature (JsNum.num 1))) (FieldUpdate.topP (JsNum.num (1 / 2))))).pushes
      = stManual.pushes ++ [(PushOrigin.commit,
          { stManual.comp.settings with
              temperature := JsNum.num 1, topP := JsNum.num (1 / 2) })] ∧
    { stManual.comp.settings with
        temperature := JsNum.num 1, topP := JsNum.num (1 / 2) }.seed
      = stManual.comp.settings.seed ∧
    { stManual.comp.settings with
        temperature := JsNum.num 1, topP := JsNum.num (1 / 2) }.model
      = stManual.comp.settings.model ∧
    { stManual.comp.settings with
        temperature := JsNum.num 1, topP := JsNum.num (1 / 2) }.useFixedSeed
      = stManual.comp.settings.useFixedSeed ∧
    { stManual.comp.settings with
        temperature := JsNum.num 1, topP := JsNum.num (1 / 2) }.numCtx
      = stManual.comp.settings.numCtx :=
  c3_applyField_commit cfgManual stManual 1 (1 / 2) rfl (by norm_num) (by norm_num)
    (by norm_num) (by norm_num)

/-- C5: when the connectivity probe reports not connected, the resolution of
fetchModels records a user-facing error string composed of a fixed message
followed by the remediation command, leaves the model list empty, leaves the
settings untouched (no model auto-selection), and makes no owner push; the
step is a total function, so the failure cannot crash the panel. -/
theorem c5_connectivity_failure (cfg : Config) (ext : Option OllamaSettings)
    (e : Option String) :
    (stepFetchResolved cfg (stepMount cfg ext)
        (FetchOutcome.connectFailed e)).comp.availableModels = [] ∧
    (stepFetchResolved cfg (stepMount cfg ext) (FetchOutcome.connectFailed e)).comp.error
      = some ("Cannot connect to Ollama. " ++ getOllamaStartCommand cfg) ∧
    (stepFetchResolved cfg (stepMount cfg ext) (FetchOutcome.connectFailed e)).comp.settings
      = (stepMount cfg ext).comp.settings ∧
    (stepFetchResolved cfg (stepMount cfg ext) (FetchOutcome.connectFailed e)).pushes = [] := by
  have hc := stepFetchResolved_connectFailed_comp cfg (stepMount cfg ext) e
  refine ⟨?_, ?_, ?_, ?_⟩
  · rw [hc, stepMount_comp]
    rfl
  · rw [hc]
    rfl
  · rw [hc]
    rfl
  · rw [stepFetchResolved_connectFailed_pushes cfg _ e (stepMount_quiescent cfg ext),
      stepMount_pushes]

/-- C6: at mount the working record equals the externally supplied initial
settings when supplied and the hard-coded default record otherwise, and
mounting produces no owner push. -/
theorem c6_initialize (cfg : Config) (ext : Option OllamaSettings) :
    (stepMount cfg ext).comp.settings = ext.getD defaultSettings ∧
    (stepMount cfg ext).pushes = [] := by
  constructor
  · rw [stepMount_comp]
  · exact stepMount_pushes cfg ext

/-- C7: a change of identity of the externally supplied settings overwrites
the working record wholesale with the new external value, while a render on
which nothing changed leaves the state untouched (the sync effect does not
fire without a genuine change of the external reference). -/
theorem c7_external_sync (cfg : Config) (st : SysState) (e : OllamaSettings)
    (hq : quiescent cfg st) :
    (stepExternalChange cfg st (some e)).comp.settings = e ∧
    stepRerender cfg st = st := by
  constructor
  · simp only [stepExternalChange, runBootstrapEffect_comp]
  · exact runBootstrapEffect_of_quiescent cfg st hq

/-- C7 witness: overwriting with a concrete external record at a quiescent
state, and the no-op re-render. -/
theorem c7_witness :
    (stepExternalChange cfgManual stManual (some extLlama)).comp.settings = extLlama ∧
    stepRerender cfgManual stManual = stManual :=
  c7_external_sync cfgManual stManual extLlama (stepMount_quiescent cfgManual none)

/-- C8: a fetched JSON body without a models key resolves to an empty model
list without entering the error state, and triggers no model selection. -/
theorem c8_absent_models_key (cfg : Config) (st : SysState) :
    (stepFetchResolved cfg st (FetchOutcome.success none)).comp.availableModels = [] ∧
    (stepFetchResolved cfg st (FetchOutcome.success none)).comp.error = none ∧
    (stepFetchResolved cfg st (FetchOutcome.success none)).comp.settings
      = st.comp.settings := by
  have hc := stepFetchResolved_success_comp cfg st none
  refine ⟨?_, ?_, ?_⟩
  · rw [hc]
    rfl
  · rw [hc]
    rfl
  · rw [hc]
    show applyModelBootstrap (modelNames none) st.comp.settings = _
    exact applyModelBootstrap_nil _

/-- C9: for every string entered in the seed or numCtx field the handler
receives the total Number coercion of the text, and the edit yields a fully
populated working record in which exactly that field carries the coerced
value; no input can raise an exception. -/
theorem c9_numeric_coercion (cfg : Config) (st : SysState) (raw : String) :
    (stepEdit cfg st (seedInputChange raw)).comp.settings
      = { st.comp.settings with seed := jsNumber raw } ∧
    (stepEdit cfg st (numCtxInputChange raw)).comp.settings
      = { st.comp.settings with numCtx := jsNumber raw } := by
  constructor
  · rw [stepEdit_settings]
    rfl
  · rw [stepEdit_settings]
    rfl

/-- C10: the default working record is exactly the literal of the source,
its temperature and topP lie in [0,2] and [0,1], its numCtx is a positive
integer and its model starts empty. -/
theorem c10_default_settings :
    defaultSettings
      = { model := ""
          temperature := JsNum.num (7 / 10)
          topP := JsNum.num (9 / 10)
          useFixedSeed := false
          seed := JsNum.num 42
          numCtx := JsNum.num 2048 } ∧
    defaultSettings.model = "" ∧
    (0 : ℚ) ≤ 7 / 10 ∧ (7 / 10 : ℚ) ≤ 2 ∧
    (0 : ℚ) ≤ 9 / 10 ∧ (9 / 10 : ℚ) ≤ 1 ∧
    (0 : ℚ) < 2048 ∧ (2048 : ℚ).den = 1 ∧ defaultSettings.seed = JsNum.num 42 :=
  ⟨rfl, rfl, by norm_num, by norm_num, by norm_num, by norm_num, by norm_num,
    by norm_num, rfl⟩

/-- C2 counterexample: the claim "every single field edit results in exactly
one owner push" is false on the code.  In auto-apply mode with an external
record whose model is empty, after bootstrap has selected model a, a single
edit of the model field to b yields two owner pushes: the deferred frame push
and a repeated bootstrap-effect push (pushes go from one to three across the
edit). -/
theorem c2_counterexample :
    stAfterBootstrap.pushes.length = 1 ∧
    (stepEdit cfgAuto stAfterBootstrap (FieldUpdate.model "b")).pushes.length = 3 := by
  constructor
  · decide
  · decide

/-- C2 (amended): in auto-apply mode a field edit updates the working record
synchronously, the handler makes no synchronous push during the same update
and schedules exactly one deferred push carrying the new record; for an edit
that leaves the model field's value unchanged (e.g. every numCtx edit) that
deferred frame push is the only owner push of the edit. -/
theorem c2_edit_single_deferred_push (cfg : Config) (st : SysState) (u : FieldUpdate)
    (hA : cfg.autoApply = true) (hq : quiescent cfg st)
    (hm : (applyField st.comp.settings u).model = st.comp.settings.model) :
    (handleSettingChange cfg.autoApply st.comp.settings u).immediatePushes = [] ∧
    (handleSettingChange cfg.autoApply st.comp.settings u).frameCallbacks
      = [applyField st.comp.settings u] ∧
    (stepEdit cfg st u).comp.settings = applyField st.comp.settings u ∧
    (stepEdit cfg st u).pushes
      = st.pushes ++ [(PushOrigin.frame, applyField st.comp.settings u)] :=
  ⟨rfl, by simp [handleSettingChange, hA], stepEdit_settings cfg st u,
    stepEdit_pushes_auto cfg st u hA hq hm⟩

/-- C2 witness: a concrete numCtx edit at the bootstrapped state makes exactly
one deferred push. -/
theorem c2_witness :
    (handleSettingChange cfgAuto.autoApply stAfterBootstrap.comp.settings
        (FieldUpdate.numCtx (JsNum.num 1))).immediatePushes = [] ∧
    (handleSettingChange cfgAuto.autoApply stAfterBootstrap.comp.settings
        (FieldUpdate.numCtx (JsNum.num 1))).frameCallbacks
      = [applyField stAfterBootstrap.comp.settings (FieldUpdate.numCtx (JsNum.num 1))] ∧
    (stepEdit cfgAuto stAfterBootstrap (FieldUpdate.numCtx (JsNum.num 1))).comp.settings
      = applyField stAfterBootstrap.comp.settings (FieldUpdate.numCtx (JsNum.num 1)) ∧
    (stepEdit cfgAuto stAfterBootstrap (FieldUpdate.numCtx (JsNum.num 1))).pushes
      = stAfterBootstrap.pushes
        ++ [(PushOrigin.frame,
             applyField stAfterBootstrap.comp.settings (FieldUpdate.numCtx (JsNum.num 1)))] :=
  c2_edit_single_deferred_push cfgAuto stAfterBootstrap (FieldUpdate.numCtx (JsNum.num 1))
    rfl (by decide) rfl

theorem stepFetchResolved_quiescent (cfg : Config) (st : SysState) (o : FetchOutcome) :
    quiescent cfg (stepFetchResolved cfg st o) := by
  unfold stepFetchResolved
  cases o <;> exact runBootstrapEffect_quiescent cfg _

/-- C4 counterexample: the claim "the whole working record is pushed to the
owner exactly once" is false on the code.  Auto-apply is on and the external
record's model is empty; bootstrap selects model a and the effect pushes once,
but a later edit changing the model to b — a change on which the model does
not become non-empty, it already was — fires the bootstrap effect a second
time: two bootstrap-effect pushes in total. -/
theorem c4_counterexample :
    bootstrapPushCount stAfterBootstrap = 1 ∧
    bootstrapPushCount (stepEdit cfgAuto stAfterBootstrap (FieldUpdate.model "b")) = 2 := by
  constructor
  · decide
  · decide

/-- C4 (amended): with auto-apply on and an externally supplied record whose
model is empty, the fetch resolution on a non-empty list makes the bootstrap
effect push the whole working record exactly once, at the point where the
model first becomes non-empty; the push is not repeated on renders where the
effect's dependencies are unchanged — in particular not on unrelated
re-renders nor on edits that leave the model value unchanged — though the
code does push again whenever the model later changes to a different
non-empty value with no external model present. -/
theorem c4_bootstrap_push_once (cfg : Config) (e : OllamaSettings)
    (m : ModelEntry) (rest : List ModelEntry) (st1 : SysState)
    (hA : cfg.autoApply = true) (hE : e.model = "") (hm : m.name ≠ "")
    (hst1 : st1 = stepFetchResolved cfg (stepMount cfg (some e))
        (FetchOutcome.success (some (m :: rest)))) :
    st1.pushes = [(PushOrigin.bootstrapEffect, { e with model := m.name })] ∧
    bootstrapPushCount st1 = 1 ∧
    (∀ u : FieldUpdate,
        (applyField st1.comp.settings u).model = st1.comp.settings.model →
        bootstrapPushCount (stepEdit cfg st1 u) = 1) ∧
    stepRerender cfg st1 = st1 := by
  subst hst1
  have hstep : stepFetchResolved cfg (stepMount cfg (some e))
        (FetchOutcome.success (some (m :: rest)))
      = runBootstrapEffect cfg
          { stepMount cfg (some e) with
              comp := fetchSuccessState (some (m :: rest)) (stepMount cfg (some e)).comp } := rfl
  rw [hstep]
  set stMid : SysState :=
    { stepMount cfg (some e) with
        comp := fetchSuccessState (some (m :: rest)) (stepMount cfg (some e)).comp } with hmd
  have hmidd : stMid.bootstrapDeps = some (cfg.autoApply, "", some "") := by
    rw [hmd]
    show (stepMount cfg (some e)).bootstrapDeps = _
    rw [stepMount_bootstrapDeps]
    simp [hE]
  have hmids : stMid.comp.settings = { e with model := m.name } := by
    rw [hmd]
    show applyModelBootstrap (modelNames (some (m :: rest)))
        (stepMount cfg (some e)).comp.settings = _
    rw [stepMount_comp]
    show applyModelBootstrap (modelNames (some (m :: rest))) e = _
    rw [applyModelBootstrap_of_empty _ _ hE (by simp [modelNames])]
    rfl
  have hmde : stMid.external = some e := by
    rw [hmd]
    show (stepMount cfg (some e)).external = some e
    exact stepMount_external cfg (some e)
  have hmp : stMid.pushes = [] := by
    rw [hmd]
    show (stepMount cfg (some e)).pushes = []
    exact stepMount_pushes cfg (some e)
  have hdof : bootstrapDepsOf cfg stMid = (cfg.autoApply, m.name, some "") := by
    unfold bootstrapDepsOf
    rw [hmids, hmde]
    simp [hE]
  have hne : stMid.bootstrapDeps ≠ some (bootstrapDepsOf cfg stMid) := by
    rw [hmidd, hdof]
    intro hcontra
    rw [Option.some.injEq, Prod.mk.injEq, Prod.mk.injEq] at hcontra
    exact hm hcontra.2.1.symm
  have hg : bootstrapGuard cfg stMid := by
    unfold bootstrapGuard
    refine ⟨hA, ?_, ?_⟩
    · rw [hmids]
      exact hm
    · rw [hmde]
      exact hE
  have hq1 : quiescent cfg (runBootstrapEffect cfg stMid) :=
    runBootstrapEffect_quiescent cfg stMid
  have hpush : (runBootstrapEffect cfg stMid).pushes
      = [(PushOrigin.bootstrapEffect, { e with model := m.name })] := by
    rw [runBootstrapEffect_pushes_fire cfg stMid hne hg, hmp, hmids]
    rfl
  refine ⟨hpush, ?_, ?_, ?_⟩
  · unfold bootstrapPushCount
    rw [hpush]
    rfl
  · intro u hu
    unfold bootstrapPushCount
    rw [stepEdit_pushes_auto cfg _ u hA hq1 hu, List.countP_append, hpush]
    rfl
  · exact runBootstrapEffect_of_quiescent cfg _ hq1

/-- C4 witness: the concrete bootstrap trace makes exactly one
bootstrap-effect push, which later model-preserving edits and re-renders do
not repeat. -/
theorem c4_witness :
    stAfterBootstrap.pushes
      = [(PushOrigin.bootstrapEffect, { extEmptyModel with model := "a" })] ∧
    bootstrapPushCount stAfterBootstrap = 1 ∧
    bootstrapPushCount (stepEdit cfgAuto stAfterBootstrap
        (FieldUpdate.numCtx (JsNum.num 1))) = 1 ∧
    stepRerender cfgAuto stAfterBootstrap = stAfterBootstrap := by
  obtain ⟨h1, h2, h3, h4⟩ := c4_bootstrap_push_once cfgAuto extEmptyModel
    { name := "a" } [] stAfterBootstrap rfl rfl (by decide) rfl
  exact ⟨h1, h2, h3 (FieldUpdate.numCtx (JsNum.num 1)) rfl, h4⟩
